import Mathlib

/-!
Verification of the tysper voice-to-keyboard daemon (src/tysper.py).

The development shallowly embeds the daemon's recording/transcription state
machine: the `Tysper` controller with its `state` field, `audio_chunks`
session buffer and input `stream`, the `toggle` handler, the helpers
`start_recording`, `stop_recording`, `transcribe` (`_transcribe`),
`type_text` (`_type_text`) and `audio_to_wav_bytes` (`_audio_to_wav_bytes`).

External effects (the sounddevice input stream, the Whisper HTTP call, the
wl-copy/ydotool subprocesses) are modelled by an environment `Env` that fixes
each call's outcome, and every externally visible action of a `toggle`
invocation is recorded in a trace of `TEvent`s, each carrying the controller
state before and after the action.
-/

/-- `class State(Enum)`: the controller states. -/
inductive State
  | IDLE
  | RECORDING
  | PROCESSING
  deriving DecidableEq, Repr

/-- `SAMPLE_RATE = 16000`. -/
def SAMPLE_RATE : Nat := 16000

/-- `CHANNELS = 1`. -/
def CHANNELS : Nat := 1

/-- One PCM frame block delivered by the audio callback: a list of signed
16-bit samples (mono, so one sample per frame). -/
abbrev Frame := List Int

/-- Outcome of the body of `_transcribe`'s try block: either
`_audio_to_wav_bytes`/file wrapping raises, or the Whisper API call raises
(network/auth/non-2xx), or the API returns `response.text`. -/
inductive ApiOutcome
  | encodeRaises
  | serviceRaises
  | returns (text : String)
  deriving DecidableEq, Repr

/-- Outcome of the subprocess calls in `_type_text`: success, a
`CalledProcessError` (non-zero exit), or a `FileNotFoundError` (tool
missing). -/
inductive InjOutcome
  | ok
  | calledProcessError
  | fileNotFound
  deriving DecidableEq, Repr

/-- Environment of one `toggle` invocation: whether `sd.InputStream(...)`
succeeds, and the outcomes of the transcription and injection calls. -/
structure Env where
  deviceOk : Bool
  api : ApiOutcome
  inj : InjOutcome
  deriving DecidableEq, Repr

/-- The mutable fields of the `Tysper` object that the state machine touches:
`self.state`, `self.audio_chunks`, and whether `self.stream` is non-`None`. -/
structure Tysper where
  state : State
  audio_chunks : List Frame
  stream : Bool
  deriving DecidableEq, Repr

/-- `Tysper.__init__`: state `IDLE`, empty buffer, no stream. -/
def Tysper.init : Tysper := ⟨State.IDLE, [], false⟩

/-- Externally visible actions of a `toggle` invocation. -/
inductive Event
  | streamOpen
  | streamStop
  | setState (s : State)
  | logNoAudio
  | sessionRetrieved (audio : List Int)
  | apiCall (wav : List Nat)
  | logError
  | logEmpty
  | logTranscription (text : String)
  | injectCall (text : String)
  | logPasted (text : String)
  | logIgnored
  deriving DecidableEq, Repr

/-- A trace entry: the event together with the controller state immediately
before and immediately after it. -/
structure TEvent where
  ev : Event
  pre : State
  post : State
  deriving DecidableEq, Repr

/-- Python `str.strip()` on the character list (drops leading and trailing
whitespace). -/
def stripChars (cs : List Char) : List Char :=
  (((cs.dropWhile Char.isWhitespace).reverse).dropWhile Char.isWhitespace).reverse

/-- Python `str.strip()`. -/
def pyStrip (s : String) : String := ⟨stripChars s.data⟩

/-- Python truthiness of the `str | None` value tested by `if text:` in
`toggle`. -/
def truthy : Option String → Bool
  | none => false
  | some t => !(t == "")

-- ---------------------------------------------------------------------------
-- Encoder (`_audio_to_wav_bytes` plus the `np.concatenate` in
-- `stop_recording`)
-- ---------------------------------------------------------------------------

/-- Two bytes, little endian. -/
def le16 (n : Nat) : List Nat := [n % 256, n / 256 % 256]

/-- Four bytes, little endian. -/
def le32 (n : Nat) : List Nat :=
  [n % 256, n / 256 % 256, n / 2 ^ 16 % 256, n / 2 ^ 24 % 256]

/-- `np.int16.tobytes`: the two's-complement 16-bit representation of one
sample, little endian. -/
def int16ToBytes (x : Int) : List Nat := le16 (x % 65536).toNat

/-- `audio.tobytes()`: the PCM byte buffer of a sample list. -/
def pcmBytes (samples : List Int) : List Nat := (samples.map int16ToBytes).flatten

/-- The 44-byte canonical WAV header the `wave` module writes for
`nchannels = CHANNELS`, `sampwidth = 2`, `framerate = SAMPLE_RATE` and a data
chunk of `dataLen` bytes: RIFF tag, riff size, WAVE tag, fmt chunk
(PCM format 1, channels, rate, byte rate, block align, bits per sample),
data tag, data size. -/
def wavHeader (dataLen : Nat) : List Nat :=
  [82, 73, 70, 70] ++ le32 (36 + dataLen) ++ [87, 65, 86, 69] ++
  [102, 109, 116, 32] ++ le32 16 ++ le16 1 ++ le16 CHANNELS ++
  le32 SAMPLE_RATE ++ le32 (SAMPLE_RATE * CHANNELS * 2) ++
  le16 (CHANNELS * 2) ++ le16 16 ++ [100, 97, 116, 97] ++ le32 dataLen

/-- `_audio_to_wav_bytes`: wrap the PCM buffer of `audio` in a WAV
container. -/
def audio_to_wav_bytes (audio : List Int) : List Nat :=
  let data := pcmBytes audio
  wavHeader data.length ++ data

/-- The spec's Encoder `encode(frames)`: `np.concatenate` the frame blocks
(which raises `ValueError` on an empty list, modelled as `none`) and wrap the
result with `_audio_to_wav_bytes`. -/
def encode (frames : List Frame) : Option (List Nat) :=
  match frames with
  | [] => none
  | _ => some (audio_to_wav_bytes frames.flatten)

-- ---------------------------------------------------------------------------
-- Controller operations
-- ---------------------------------------------------------------------------

/-- `_set_state`: assign `self.state`, yielding the updated object and the
state-transition notification event. -/
def set_state (s : State) (t : Tysper) : Tysper × TEvent :=
  ({ t with state := s }, ⟨Event.setState s, t.state, s⟩)

/-- `start_recording`: clear `audio_chunks`, then open the input stream.
If `sd.InputStream` raises (`deviceOk = false`) the exception propagates and
no further statement runs: the buffer is already cleared but the stream and
state are unchanged. Otherwise the stream is started and the state set to
`RECORDING`. -/
def start_recording (env : Env) (t : Tysper) : Tysper × List TEvent :=
  let t0 : Tysper := { t with audio_chunks := [] }
  if env.deviceOk then
    let t1 : Tysper := { t0 with stream := true }
    ((set_state State.RECORDING t1).1,
      [⟨Event.streamOpen, t1.state, t1.state⟩, (set_state State.RECORDING t1).2])
  else
    (t0, [])

/-- `stop_recording`: if no stream is open return `None`; otherwise stop and
close the stream; if no chunks were captured log a warning and return `None`;
otherwise return the concatenated chunks and clear the buffer. -/
def stop_recording (t : Tysper) : Option (List Int) × Tysper × List TEvent :=
  if t.stream then
    let t1 : Tysper := { t with stream := false }
    if t1.audio_chunks = [] then
      (none, t1, [⟨Event.streamStop, t.state, t.state⟩,
                  ⟨Event.logNoAudio, t.state, t.state⟩])
    else
      let audio := t1.audio_chunks.flatten
      (some audio, { t1 with audio_chunks := [] },
        [⟨Event.streamStop, t.state, t.state⟩,
         ⟨Event.sessionRetrieved audio, t.state, t.state⟩])
  else
    (none, t, [])

/-- `_transcribe`: encode to WAV and call the Whisper API inside one
try/except; any exception is logged and absorbed, yielding `None`; an
empty-after-strip response is logged and yields `None`; otherwise the
stripped text is returned. `st` is the controller state while this runs. -/
def transcribe (audio : List Int) (api : ApiOutcome) (st : State) :
    Option String × List TEvent :=
  match api with
  | ApiOutcome.encodeRaises =>
      (none, [⟨Event.logError, st, st⟩])
  | ApiOutcome.serviceRaises =>
      (none, [⟨Event.apiCall (audio_to_wav_bytes audio), st, st⟩,
              ⟨Event.logError, st, st⟩])
  | ApiOutcome.returns s =>
      let wav := audio_to_wav_bytes audio
      let txt := pyStrip s
      if txt = "" then
        (none, [⟨Event.apiCall wav, st, st⟩, ⟨Event.logEmpty, st, st⟩])
      else
        (some txt, [⟨Event.apiCall wav, st, st⟩])

/-- `_type_text`: invoke wl-copy and ydotool; `CalledProcessError` and
`FileNotFoundError` are caught and logged, never re-raised. -/
def type_text (s : String) (inj : InjOutcome) (st : State) : List TEvent :=
  match inj with
  | InjOutcome.ok =>
      [⟨Event.injectCall s, st, st⟩, ⟨Event.logPasted s, st, st⟩]
  | InjOutcome.calledProcessError =>
      [⟨Event.injectCall s, st, st⟩, ⟨Event.logError, st, st⟩]
  | InjOutcome.fileNotFound =>
      [⟨Event.injectCall s, st, st⟩, ⟨Event.logError, st, st⟩]

/-- `toggle`: dispatch on `self.state`.
In `IDLE`: `start_recording`.
In `RECORDING`: set state to `PROCESSING` first, stop the capture, and if a
session was captured, transcribe it and, when the text is truthy, log it and
inject it; finally set state back to `IDLE`.
In `PROCESSING`: log that the toggle is ignored and change nothing. -/
def toggle (env : Env) (t : Tysper) : Tysper × List TEvent :=
  match t.state with
  | State.IDLE => start_recording env t
  | State.RECORDING =>
      let p := set_state State.PROCESSING t
      let r := stop_recording p.1
      match r.1 with
      | none =>
          let q := set_state State.IDLE r.2.1
          (q.1, p.2 :: r.2.2 ++ [q.2])
      | some audio =>
          let tr := transcribe audio env.api r.2.1.state
          let inj :=
            if truthy tr.1 then
              ⟨Event.logTranscription (tr.1.getD ""), r.2.1.state, r.2.1.state⟩ ::
                type_text (tr.1.getD "") env.inj r.2.1.state
            else []
          let q := set_state State.IDLE r.2.1
          (q.1, p.2 :: (r.2.2 ++ tr.2 ++ inj ++ [q.2]))
  | State.PROCESSING =>
      (t, [⟨Event.logIgnored, t.state, t.state⟩])

/-- `_audio_callback`: append the delivered block to `audio_chunks`. The
sounddevice callback only fires while the stream is open. -/
def audio_callback (f : Frame) (t : Tysper) : Tysper :=
  if t.stream then { t with audio_chunks := t.audio_chunks ++ [f] } else t

/-- One external stimulus: a toggle signal, or a frame block delivered by the
audio subsystem. -/
inductive Stim
  | tog (env : Env)
  | frame (f : Frame)
  deriving Repr

/-- Apply one stimulus. -/
def step (t : Tysper) : Stim → Tysper × List TEvent
  | Stim.tog env => toggle env t
  | Stim.frame f => (audio_callback f t, [])

/-- Run a list of stimuli, concatenating the traces. -/
def run (t : Tysper) : List Stim → Tysper × List TEvent
  | [] => (t, [])
  | a :: as =>
      let s := step t a
      let rest := run s.1 as
      (rest.1, s.2 ++ rest.2)

/-- Deliver a list of frame blocks through the audio callback. -/
def deliver (fs : List Frame) (t : Tysper) : Tysper :=
  fs.foldl (fun s f => audio_callback f s) t

/-- Events that belong to the stop/encode/transcribe/inject sequence of a
processing cycle. -/
def capturePhase : Event → Bool
  | Event.streamStop => true
  | Event.sessionRetrieved _ => true
  | Event.apiCall _ => true
  | Event.injectCall _ => true
  | _ => false

/-- Is this event an invocation of the transcription client? -/
def isApiCall : Event → Bool
  | Event.apiCall _ => true
  | _ => false

/-- Is this event an invocation of the text injector? -/
def isInjectCall : Event → Bool
  | Event.injectCall _ => true
  | _ => false

-- ---------------------------------------------------------------------------
-- WAV container parser (for the round-trip property)
-- ---------------------------------------------------------------------------

/-- Recombine two little-endian bytes. -/
def combineLE16 (b0 b1 : Nat) : Nat := b0 + 256 * b1

/-- Recombine four little-endian bytes. -/
def combineLE32 (b0 b1 b2 b3 : Nat) : Nat :=
  b0 + 256 * b1 + 2 ^ 16 * b2 + 2 ^ 24 * b3

/-- Decode one unsigned 16-bit value as a two's-complement signed sample. -/
def decodeInt16 (v : Nat) : Int :=
  if v < 32768 then (v : Int) else (v : Int) - 65536

/-- Decode a PCM byte buffer into its 16-bit little-endian samples. -/
def decodeSamples : List Nat → List Int
  | b0 :: b1 :: rest => decodeInt16 (combineLE16 b0 b1) :: decodeSamples rest
  | _ => []

/-- Result of parsing a WAV container. -/
structure WavInfo where
  channels : Nat
  sampleRate : Nat
  samples : List Int
  deriving DecidableEq, Repr

/-- Parse a canonical 44-byte-header WAV container: check the RIFF/WAVE/fmt/
data tags, the PCM format code, the 16-bit sample width, the declared sizes
and the byte-rate/block-align consistency, and recover the channel count,
sample rate and decoded samples. -/
def parseWav : List Nat → Option WavInfo
  | m0 :: m1 :: m2 :: m3 :: s0 :: s1 :: s2 :: s3 ::
    w0 :: w1 :: w2 :: w3 :: f0 :: f1 :: f2 :: f3 ::
    fs0 :: fs1 :: fs2 :: fs3 :: a0 :: a1 :: c0 :: c1 ::
    r0 :: r1 :: r2 :: r3 :: br0 :: br1 :: br2 :: br3 ::
    ba0 :: ba1 :: bd0 :: bd1 :: d0 :: d1 :: d2 :: d3 ::
    l0 :: l1 :: l2 :: l3 :: rest =>
    if m0 = 82 ∧ m1 = 73 ∧ m2 = 70 ∧ m3 = 70 ∧
       w0 = 87 ∧ w1 = 65 ∧ w2 = 86 ∧ w3 = 69 ∧
       f0 = 102 ∧ f1 = 109 ∧ f2 = 116 ∧ f3 = 32 ∧
       combineLE32 fs0 fs1 fs2 fs3 = 16 ∧
       combineLE16 a0 a1 = 1 ∧
       combineLE16 bd0 bd1 = 16 ∧
       d0 = 100 ∧ d1 = 97 ∧ d2 = 116 ∧ d3 = 97 ∧
       combineLE32 s0 s1 s2 s3 = 36 + combineLE32 l0 l1 l2 l3 ∧
       combineLE32 l0 l1 l2 l3 = rest.length ∧
       combineLE16 ba0 ba1 = combineLE16 c0 c1 * 2 ∧
       combineLE32 br0 br1 br2 br3 =
         combineLE32 r0 r1 r2 r3 * combineLE16 c0 c1 * 2
    then some ⟨combineLE16 c0 c1, combineLE32 r0 r1 r2 r3, decodeSamples rest⟩
    else none
  | _ => none

-- ---------------------------------------------------------------------------
-- Encoder lemmas
-- ---------------------------------------------------------------------------

lemma combine_le16 (n : Nat) (h : n < 2 ^ 16) :
    combineLE16 (n % 256) (n / 256 % 256) = n := by
  simp only [combineLE16]; omega

lemma combine_le32 (n : Nat) (h : n < 2 ^ 32) :
    combineLE32 (n % 256) (n / 256 % 256) (n / 2 ^ 16 % 256) (n / 2 ^ 24 % 256) = n := by
  simp only [combineLE32]; omega

lemma decodeInt16_int16 (x : Int) (h1 : -32768 ≤ x) (h2 : x < 32768) :
    decodeInt16 (combineLE16 ((x % 65536).toNat % 256) ((x % 65536).toNat / 256 % 256)) = x := by
  simp only [combineLE16, decodeInt16]
  split <;> omega

/-- Decoding inverts `audio.tobytes()` for in-range samples. -/
lemma decodeSamples_pcmBytes (samples : List Int)
    (h : ∀ x ∈ samples, -32768 ≤ x ∧ x < 32768) :
    decodeSamples (pcmBytes samples) = samples := by
  induction samples with
  | nil => rfl
  | cons x xs ih =>
      have hx := h x (by simp)
      simp only [pcmBytes, List.map_cons, List.flatten_cons, int16ToBytes, le16,
        List.cons_append, List.nil_append]
      rw [decodeSamples]
      rw [decodeInt16_int16 x hx.1 hx.2]
      congr 1
      exact ih (fun y hy => h y (by simp [hy]))

lemma pcmBytes_length (samples : List Int) :
    (pcmBytes samples).length = 2 * samples.length := by
  induction samples with
  | nil => rfl
  | cons x xs ih =>
      simp only [pcmBytes, List.map_cons, List.flatten_cons, int16ToBytes, le16] at *
      simp [ih]
      omega

/-- Parsing inverts `_audio_to_wav_bytes` and recovers the configured channel
count and sample rate. -/
lemma parseWav_wav (audio : List Int)
    (hrange : ∀ x ∈ audio, -32768 ≤ x ∧ x < 32768)
    (hlen : 36 + 2 * audio.length < 2 ^ 32) :
    parseWav (audio_to_wav_bytes audio) = some ⟨CHANNELS, SAMPLE_RATE, audio⟩ := by
  have hL : (pcmBytes audio).length = 2 * audio.length := pcmBytes_length audio
  simp only [audio_to_wav_bytes, wavHeader, le16, le32, CHANNELS, SAMPLE_RATE,
    List.cons_append, List.nil_append, List.append_nil]
  rw [parseWav]
  norm_num [combineLE16, combineLE32, hL]
  constructor
  · omega
  · rw [decodeSamples_pcmBytes audio hrange]

lemma flatten_length_uniform (frames : List Frame) (frame_size : Nat)
    (hsize : ∀ f ∈ frames, f.length = frame_size) :
    frames.flatten.length = frames.length * frame_size := by
  induction frames with
  | nil => simp
  | cons f fs ih =>
      simp only [List.flatten_cons, List.length_append, List.length_cons,
        hsize f (by simp), ih (fun g hg => hsize g (by simp [hg]))]
      ring

-- ---------------------------------------------------------------------------
-- Controller lemmas
-- ---------------------------------------------------------------------------

lemma toggle_entry (env : Env) (t : Tysper) :
    ∀ te ∈ (toggle env t).2,
      (te.ev = Event.setState State.RECORDING → te.pre = State.IDLE) ∧
      (te.ev = Event.setState State.PROCESSING → te.pre = State.RECORDING) := by
  obtain ⟨st, chunks, strm⟩ := t
  obtain ⟨dev, api, inj⟩ := env
  cases st <;> cases dev <;> cases strm <;> cases chunks <;> cases api <;> cases inj
  all_goals try (rename_i s; by_cases hps : pyStrip s = "")
  all_goals
    simp_all [toggle, start_recording, set_state, stop_recording, transcribe,
      type_text, truthy, List.forall_mem_cons]

lemma run_entry (acts : List Stim) (t : Tysper) :
    ∀ te ∈ (run t acts).2,
      (te.ev = Event.setState State.RECORDING → te.pre = State.IDLE) ∧
      (te.ev = Event.setState State.PROCESSING → te.pre = State.RECORDING) := by
  induction acts generalizing t with
  | nil => simp [run]
  | cons a as ih =>
      intro te hte
      simp only [run] at hte
      rcases a with env | f
      · simp only [step] at hte
        rcases List.mem_append.mp hte with h1 | h2
        · exact toggle_entry env t te h1
        · exact ih _ te h2
      · simp only [step, List.nil_append] at hte
        exact ih _ te hte

lemma deliver_append (fs : List Frame) (t : Tysper) (h : t.stream = true) :
    deliver fs t = { t with audio_chunks := t.audio_chunks ++ fs } := by
  induction fs generalizing t with
  | nil => simp [deliver]
  | cons f fl ih =>
      have h2 : deliver (f :: fl) t =
          deliver fl { t with audio_chunks := t.audio_chunks ++ [f] } := by
        simp [deliver, audio_callback, h]
      rw [h2, ih _ (by simp [h])]
      simp

-- ---------------------------------------------------------------------------
-- Claims
-- ---------------------------------------------------------------------------

/-- Claim C1: a `toggle` that starts in `RECORDING` ends with the controller
in `IDLE`, whatever the encoding, transcription and injection outcomes are:
it never remains stuck in `PROCESSING`, and no failure escapes the handler
(the model of `toggle` is a total function). -/
theorem C1_processing_returns_idle (env : Env) (t : Tysper)
    (h : t.state = State.RECORDING) :
    (toggle env t).1.state = State.IDLE := by
  obtain ⟨st, chunks, strm⟩ := t
  simp only at h
  subst h
  simp only [toggle, set_state, stop_recording, transcribe, type_text, truthy]
  cases strm <;> cases chunks <;>
    cases env.api <;>
    simp [set_state]

theorem C1_witness :
    (toggle ⟨true, ApiOutcome.serviceRaises, InjOutcome.fileNotFound⟩
      ⟨State.RECORDING, [[1]], true⟩).1.state = State.IDLE :=
  C1_processing_returns_idle ⟨true, ApiOutcome.serviceRaises, InjOutcome.fileNotFound⟩
    ⟨State.RECORDING, [[1]], true⟩ rfl

/-- Claim C2: over every run of toggle signals and frame deliveries from the
initial state, `RECORDING` is entered only from `IDLE` and `PROCESSING` only
from `RECORDING`. -/
theorem C2_entry_transitions (acts : List Stim) :
    ∀ te ∈ (run Tysper.init acts).2,
      (te.ev = Event.setState State.RECORDING → te.pre = State.IDLE) ∧
      (te.ev = Event.setState State.PROCESSING → te.pre = State.RECORDING) :=
  run_entry acts Tysper.init

theorem C2_witness :
    (⟨Event.setState State.RECORDING, State.IDLE, State.RECORDING⟩ : TEvent).pre =
      State.IDLE :=
  (C2_entry_transitions [Stim.tog ⟨true, ApiOutcome.returns "hi", InjOutcome.ok⟩]
    ⟨Event.setState State.RECORDING, State.IDLE, State.RECORDING⟩ (by decide)).1 rfl

/-- Claim C3: a toggle arriving in `PROCESSING` leaves the controller object
(state and session buffer) unchanged and only logs that it was ignored. -/
theorem C3_processing_toggle_dropped (env : Env) (t : Tysper)
    (h : t.state = State.PROCESSING) :
    toggle env t =
      (t, [⟨Event.logIgnored, State.PROCESSING, State.PROCESSING⟩]) := by
  obtain ⟨st, chunks, strm⟩ := t
  simp only at h
  subst h
  rfl

theorem C3_witness :
    toggle ⟨true, ApiOutcome.returns "x", InjOutcome.ok⟩
        ⟨State.PROCESSING, [[7]], false⟩ =
      (⟨State.PROCESSING, [[7]], false⟩,
        [⟨Event.logIgnored, State.PROCESSING, State.PROCESSING⟩]) :=
  C3_processing_toggle_dropped ⟨true, ApiOutcome.returns "x", InjOutcome.ok⟩
    ⟨State.PROCESSING, [[7]], false⟩ rfl

/-- Claim C4: stopping in `RECORDING` with an empty session buffer yields an
absent result, the controller goes straight back to `IDLE`, and the
transcription client is never invoked in that cycle. -/
theorem C4_empty_session_skips_transcription (env : Env) (t : Tysper)
    (h : t.state = State.RECORDING) (hempty : t.audio_chunks = []) :
    (stop_recording (set_state State.PROCESSING t).1).1 = none ∧
    (toggle env t).1.state = State.IDLE ∧
    ∀ te ∈ (toggle env t).2, isApiCall te.ev = false := by
  obtain ⟨st, chunks, strm⟩ := t
  obtain ⟨dev, api, inj⟩ := env
  simp only at h hempty
  subst h
  subst hempty
  cases strm <;>
    simp [toggle, set_state, stop_recording, transcribe, type_text, truthy,
      isApiCall, List.forall_mem_cons]

theorem C4_witness :
    (stop_recording (set_state State.PROCESSING ⟨State.RECORDING, [], true⟩).1).1 = none ∧
    (toggle ⟨true, ApiOutcome.returns "hi", InjOutcome.ok⟩
      ⟨State.RECORDING, [], true⟩).1.state = State.IDLE ∧
    ∀ te ∈ (toggle ⟨true, ApiOutcome.returns "hi", InjOutcome.ok⟩
      ⟨State.RECORDING, [], true⟩).2, isApiCall te.ev = false :=
  C4_empty_session_skips_transcription ⟨true, ApiOutcome.returns "hi", InjOutcome.ok⟩
    ⟨State.RECORDING, [], true⟩ rfl rfl

/-- Claim C5: a blank/whitespace-only service response makes `_transcribe`
return an absent result, the injector is never invoked in that cycle and the
state returns to `IDLE`; a non-blank response yields exactly the stripped
text. -/
theorem C5_blank_transcription (env : Env) (t : Tysper) (s : String)
    (audio : List Int) (st : State)
    (h : t.state = State.RECORDING) (hapi : env.api = ApiOutcome.returns s) :
    (pyStrip s = "" →
      (transcribe audio env.api st).1 = none ∧
      (∀ te ∈ (toggle env t).2, isInjectCall te.ev = false) ∧
      (toggle env t).1.state = State.IDLE) ∧
    (pyStrip s ≠ "" → (transcribe audio env.api st).1 = some (pyStrip s)) := by
  obtain ⟨stt, chunks, strm⟩ := t
  obtain ⟨dev, api, inj⟩ := env
  simp only at h hapi
  subst h
  subst hapi
  by_cases hps : pyStrip s = "" <;>
    cases strm <;> cases chunks <;> cases inj <;>
    simp_all [toggle, set_state, stop_recording, transcribe, type_text, truthy,
      isInjectCall, List.forall_mem_cons]

theorem C5_witness :
    pyStrip " \n " = "" ∧
    ((transcribe [1] (ApiOutcome.returns " \n ") State.PROCESSING).1 = none ∧
      (∀ te ∈ (toggle ⟨true, ApiOutcome.returns " \n ", InjOutcome.ok⟩
        ⟨State.RECORDING, [[1]], true⟩).2, isInjectCall te.ev = false) ∧
      (toggle ⟨true, ApiOutcome.returns " \n ", InjOutcome.ok⟩
        ⟨State.RECORDING, [[1]], true⟩).1.state = State.IDLE) :=
  ⟨by decide,
    (C5_blank_transcription ⟨true, ApiOutcome.returns " \n ", InjOutcome.ok⟩
      ⟨State.RECORDING, [[1]], true⟩ " \n " [1] State.PROCESSING rfl rfl).1 (by decide)⟩

/-- Claim C6: in a toggle that starts in `RECORDING`, the very first trace
event is the `RECORDING → PROCESSING` transition — so it precedes the stream
stop and the session retrieval — and every stop/retrieve/transcribe/inject
event happens with the controller in `PROCESSING`, never in `RECORDING`. -/
theorem C6_processing_set_before_stop (env : Env) (t : Tysper)
    (h : t.state = State.RECORDING) :
    (toggle env t).2.head? =
      some ⟨Event.setState State.PROCESSING, State.RECORDING, State.PROCESSING⟩ ∧
    ∀ te ∈ (toggle env t).2, capturePhase te.ev = true →
      te.pre = State.PROCESSING ∧ te.post = State.PROCESSING := by
  obtain ⟨st, chunks, strm⟩ := t
  obtain ⟨dev, api, inj⟩ := env
  simp only at h
  subst h
  cases strm <;> cases chunks <;> cases api <;> cases inj
  all_goals try (rename_i s; by_cases hps : pyStrip s = "")
  all_goals
    simp_all [toggle, set_state, stop_recording, transcribe, type_text, truthy,
      capturePhase, List.forall_mem_cons]

theorem C6_witness :
    (toggle ⟨true, ApiOutcome.returns "ok", InjOutcome.ok⟩
        ⟨State.RECORDING, [[3]], true⟩).2.head? =
      some ⟨Event.setState State.PROCESSING, State.RECORDING, State.PROCESSING⟩ ∧
    ∀ te ∈ (toggle ⟨true, ApiOutcome.returns "ok", InjOutcome.ok⟩
        ⟨State.RECORDING, [[3]], true⟩).2, capturePhase te.ev = true →
      te.pre = State.PROCESSING ∧ te.post = State.PROCESSING :=
  C6_processing_set_before_stop ⟨true, ApiOutcome.returns "ok", InjOutcome.ok⟩
    ⟨State.RECORDING, [[3]], true⟩ rfl

/-- Claim C7: the encoder fails exactly on zero frames: `encode` is `none`
iff the frame list is empty. -/
theorem C7_encode_fails_iff_empty (frames : List Frame) :
    encode frames = none ↔ frames = [] := by
  cases frames <;> simp [encode]

/-- Claim C8: encoding `N` frames of `frame_size` samples each and parsing
the resulting container recovers exactly `N * frame_size` samples, the
configured sample rate and channel count, with the frame blocks concatenated
in arrival order. -/
theorem C8_encode_round_trip (frames : List Frame) (N frame_size : Nat)
    (hN : frames.length = N)
    (hne : frames ≠ [])
    (hsize : ∀ f ∈ frames, f.length = frame_size)
    (hrange : ∀ f ∈ frames, ∀ x ∈ f, -32768 ≤ x ∧ x < 32768)
    (hlen : 36 + 2 * frames.flatten.length < 2 ^ 32) :
    encode frames = some (audio_to_wav_bytes frames.flatten) ∧
    parseWav (audio_to_wav_bytes frames.flatten) =
      some ⟨CHANNELS, SAMPLE_RATE, frames.flatten⟩ ∧
    frames.flatten.length = N * frame_size := by
  refine ⟨?_, ?_, ?_⟩
  · cases frames with
    | nil => exact absurd rfl hne
    | cons f fs => rfl
  · refine parseWav_wav frames.flatten ?_ hlen
    intro x hx
    obtain ⟨f, hf, hxf⟩ := List.mem_flatten.mp hx
    exact hrange f hf x hxf
  · rw [flatten_length_uniform frames frame_size hsize, hN]

theorem C8_witness :
    ([[1, -2], [3, 4]] : List Frame).length = 2 ∧
    ([[1, -2], [3, 4]] : List Frame) ≠ [] ∧
    encode [[1, -2], [3, 4]] = some (audio_to_wav_bytes [1, -2, 3, 4]) ∧
    parseWav (audio_to_wav_bytes [1, -2, 3, 4]) =
      some ⟨CHANNELS, SAMPLE_RATE, [1, -2, 3, 4]⟩ ∧
    ([[1, -2], [3, 4]] : List Frame).flatten.length = 2 * 2 := by
  have h := C8_encode_round_trip [[1, -2], [3, 4]] 2 2 (by decide) (by decide)
    (by decide) (by decide) (by norm_num)
  exact ⟨by decide, by decide, h.1, h.2.1, h.2.2⟩

/-- Claim C9: encoding is deterministic: two calls on identical input give
byte-identical output. -/
theorem C9_encode_deterministic (frames1 frames2 : List Frame)
    (h : frames1 = frames2) : encode frames1 = encode frames2 := by
  rw [h]

theorem C9_witness : encode [[5]] = encode [[5]] :=
  C9_encode_deterministic [[5]] [[5]] rfl

/-- Claim C10: a toggle from `IDLE` clears the session buffer before the
stream opens (so even a failed device open leaves it cleared), the frames
delivered afterwards are exactly the buffer contents, the session retrieved
and encoded by the closing toggle is exactly their concatenation — no frame
of an earlier session — and the buffer is empty again afterwards. -/
theorem C10_session_isolation (t : Tysper) (env1 env2 env3 : Env) (fs : List Frame)
    (hidle : t.state = State.IDLE) (hdev : env1.deviceOk = true) (hfs : fs ≠ []) :
    ((toggle env1 t).1.audio_chunks = []) ∧
    ((start_recording env3 t).1.audio_chunks = []) ∧
    ((deliver fs (toggle env1 t).1).audio_chunks = fs) ∧
    (∃ te ∈ (toggle env2 (deliver fs (toggle env1 t).1)).2,
      te.ev = Event.sessionRetrieved fs.flatten) ∧
    (∀ te ∈ (toggle env2 (deliver fs (toggle env1 t).1)).2, ∀ wav,
      te.ev = Event.apiCall wav → wav = audio_to_wav_bytes fs.flatten) ∧
    (toggle env2 (deliver fs (toggle env1 t).1)).1.audio_chunks = [] := by
  obtain ⟨st, chunks, strm⟩ := t
  simp only at hidle
  subst hidle
  have h1 : (toggle env1 ⟨State.IDLE, chunks, strm⟩).1 = ⟨State.RECORDING, [], true⟩ := by
    simp [toggle, start_recording, set_state, hdev]
  have h2 : deliver fs (toggle env1 ⟨State.IDLE, chunks, strm⟩).1 =
      ⟨State.RECORDING, fs, true⟩ := by
    rw [h1, deliver_append fs _ (by simp)]
    simp
  rw [h2, h1]
  obtain ⟨dev2, api2, inj2⟩ := env2
  refine ⟨rfl, by simp only [start_recording, set_state]; split <;> rfl,
    rfl, ?_, ?_, ?_⟩ <;>
    cases api2 <;> cases inj2
  all_goals try (rename_i s; by_cases hps : pyStrip s = "")
  all_goals
    simp_all [toggle, set_state, stop_recording, transcribe, type_text, truthy,
      List.forall_mem_cons]

theorem C10_witness :
    ((toggle ⟨true, ApiOutcome.returns "a", InjOutcome.ok⟩
      ⟨State.IDLE, [[9]], false⟩).1.audio_chunks = []) ∧
    ((start_recording ⟨false, ApiOutcome.serviceRaises, InjOutcome.ok⟩
      ⟨State.IDLE, [[9]], false⟩).1.audio_chunks = []) ∧
    ((deliver [[1], [2]] (toggle ⟨true, ApiOutcome.returns "a", InjOutcome.ok⟩
      ⟨State.IDLE, [[9]], false⟩).1).audio_chunks = [[1], [2]]) ∧
    (∃ te ∈ (toggle ⟨true, ApiOutcome.returns "a", InjOutcome.ok⟩
        (deliver [[1], [2]] (toggle ⟨true, ApiOutcome.returns "a", InjOutcome.ok⟩
          ⟨State.IDLE, [[9]], false⟩).1)).2,
      te.ev = Event.sessionRetrieved ([[1], [2]] : List Frame).flatten) ∧
    (∀ te ∈ (toggle ⟨true, ApiOutcome.returns "a", InjOutcome.ok⟩
        (deliver [[1], [2]] (toggle ⟨true, ApiOutcome.returns "a", InjOutcome.ok⟩
          ⟨State.IDLE, [[9]], false⟩).1)).2, ∀ wav,
      te.ev = Event.apiCall wav →
        wav = audio_to_wav_bytes ([[1], [2]] : List Frame).flatten) ∧
    (toggle ⟨true, ApiOutcome.returns "a", InjOutcome.ok⟩
      (deliver [[1], [2]] (toggle ⟨true, ApiOutcome.returns "a", InjOutcome.ok⟩
        ⟨State.IDLE, [[9]], false⟩).1)).1.audio_chunks = [] :=
  C10_session_isolation ⟨State.IDLE, [[9]], false⟩
    ⟨true, ApiOutcome.returns "a", InjOutcome.ok⟩
    ⟨true, ApiOutcome.returns "a", InjOutcome.ok⟩
    ⟨false, ApiOutcome.serviceRaises, InjOutcome.ok⟩
    [[1], [2]] rfl rfl (by decide)
